import Mathlib

/-!
# EasyPulse — formal model of the volume/mute controller, default-device
switcher and synchronous bridge

Shallow embedding of the parts of the EasyPulse repository that the claims
under scrutiny talk about.  The embedded functions are translated from:

* `src/v-0.14/easypulse_core.c` — `iterate`, `manager_set_master_volume`,
  `manager_toggle_output_mute`, `manager_switch_default_output`,
  `manager_set_output_mute_state` and their callbacks;
* `src/v-0.03/easypulse_core.c` — `iterate` (the bounded-wait variant),
  `set_volume` and its callbacks `set_volume_cb1` / `set_volume_cb2`;
* `src/v-0.12/system_query.c` — `get_output_device_by_index`,
  `get_output_device_index_by_code`, `get_available_input_devices_cb`
  (the growable-array append path).

The PulseAudio server is modelled as an explicit state (`ServerState`);
every asynchronous request submitted to the server is recorded in a
`Request` trace so that round-trip counts can be stated.  Machine volumes
(`pa_volume_t`, 32-bit) are modelled as `Nat`: every value that occurs is
far below `2^32`, so no wrap-around can occur and `Nat` is faithful.
-/

namespace EasyPulse

/-! ## PulseAudio constants (`pulse/volume.h`) -/

/-- Constant `PA_VOLUME_NORM = 0x10000`: the server's full-scale ("100%") raw volume. -/
def PA_VOLUME_NORM : Nat := 65536

/-- Constant `PA_VOLUME_MUTED = 0`. -/
def PA_VOLUME_MUTED : Nat := 0

/-! ## Channel-volume vectors (`pa_cvolume`)

A `pa_cvolume` is a channel count plus one raw value per channel; it is
modelled as a `List Nat` whose length is the channel count. -/

/-- Function `pa_cvolume_set(&cv, channels, v)`: every channel receives the value `v`. -/
def pa_cvolume_set (channels : Nat) (v : Nat) : List Nat :=
  List.replicate channels v

/-- Function `pa_cvolume_max(&cv)`: the maximum over the channel values
(`PA_VOLUME_MUTED` for an empty vector). -/
def pa_cvolume_max (vol : List Nat) : Nat :=
  vol.foldl max 0

/-! ## Server model

`SinkInfo` mirrors the fields of `pa_sink_info` that the embedded code
reads: server-assigned numeric index, name (the stable "code"),
description, channel count (`channel_map.channels`) and the per-channel
volume vector.  `StreamInfo` mirrors `pa_sink_input_info` (only the index
is read).  `ServerState` is the server-side state the modelled operations
observe and mutate. -/

structure SinkInfo where
  index : Nat
  name : String
  description : String
  channels : Nat
  volume : List Nat
deriving Repr, DecidableEq

structure StreamInfo where
  index : Nat
deriving Repr, DecidableEq

structure ServerState where
  sinks : List SinkInfo
  defaultSink : String
  sinkInputs : List StreamInfo
deriving Repr, DecidableEq

/-- One asynchronous request submitted to the PulseAudio server.  Each
constructor corresponds to one `pa_context_*` call made by the embedded
code; a list of `Request`s is the round-trip trace of an operation. -/
inductive Request where
  | getSinkInfoByIndex (idx : Nat)
  | getSinkInfoByName (name : String)
  | setSinkVolumeByIndex (idx : Nat) (vol : List Nat)
  | setSinkVolumeByName (name : String) (vol : List Nat)
  | setSinkMuteByIndex (idx : Nat) (state : Bool)
  | setDefaultSink (code : String)
  | getSinkInputInfoList
  | moveSinkInput (streamIdx : Nat) (sinkIdx : Nat)
deriving Repr, DecidableEq

/-- Server lookup of a sink by numeric index (`pa_context_get_sink_info_by_index`
delivers the first sink whose index matches, or only an end-of-list call). -/
def findSinkByIndex (server : ServerState) (idx : Nat) : Option SinkInfo :=
  server.sinks.find? (fun s => s.index == idx)

/-- Server lookup of a sink by name (`pa_context_get_sink_info_by_name`). -/
def findSinkByName (server : ServerState) (name : String) : Option SinkInfo :=
  server.sinks.find? (fun s => s.name == name)

/-- Server-side effect of `pa_context_set_sink_volume_by_index`. -/
def serverSetSinkVolumeByIndex (server : ServerState) (idx : Nat) (vol : List Nat) :
    ServerState :=
  { server with
    sinks := server.sinks.map (fun s => if s.index == idx then { s with volume := vol } else s) }

/-- Server-side effect of `pa_context_set_sink_volume_by_name`. -/
def serverSetSinkVolumeByName (server : ServerState) (name : String) (vol : List Nat) :
    ServerState :=
  { server with
    sinks := server.sinks.map (fun s => if s.name == name then { s with volume := vol } else s) }

/-! ## The synchronous bridge primitive (`iterate`)

Two variants exist in the repository and they differ exactly where claim
C1 looks.

`src/v-0.14/easypulse_core.c` lines 369–391: after the reentrancy check
and (possibly) taking the mainloop lock, the function performs a single
`pa_threaded_mainloop_wait` — an unbounded condition wait with no cycle
counter and no cutoff.  If the operation's callback never signals, the
wait never returns.  The outcome is modelled as `WaitOutcome`:
`returned n` means the call came back after `n` wait cycles,
`blocksForever` means the condition wait never returns. -/

inductive WaitOutcome where
  | returned (waits : Nat)
  | blocksForever
deriving Repr, DecidableEq

/-- Function `iterate` of `src/v-0.14/easypulse_core.c`.  `has_op` is whether `op`
is non-null (`if (!op) return;`); `signal_arrives` is whether the
operation's completion callback ever signals the mainloop condition. -/
def iterate_v014 (has_op : Bool) (signal_arrives : Bool) : WaitOutcome :=
  if !has_op then
    WaitOutcome.returned 0
  else if signal_arrives then
    WaitOutcome.returned 1
  else
    WaitOutcome.blocksForever

/-- Constant `MAX_WAIT_CYCLES` of `iterate` in `src/v-0.03/easypulse_core.c` line 538. -/
def MAX_WAIT_CYCLES : Nat := 100

/-- What one `iterate` call of `src/v-0.03/easypulse_core.c` did:
how many wait cycles ran and whether the timeout `break` was taken.
The C function returns `void`: neither field is visible to its caller. -/
structure IterateResultV003 where
  waits : Nat
  timed_out : Bool
deriving Repr, DecidableEq

/-- The wait loop of `iterate` in `src/v-0.03/easypulse_core.c` lines
542–550.  `running k` is whether `pa_operation_get_state(op)` still
reports `PA_OPERATION_RUNNING` at the k-th check (after `k` waits).
The loop checks the state first, then the cutoff, then waits.  `fuel`
only bounds the recursion; the caller passes `MAX_WAIT_CYCLES + 1`,
which the cutoff makes sufficient (the fuel-exhausted branch is
unreachable, see `iterate_loop_v003_fuel_irrelevant`). -/
def iterate_loop_v003 (running : Nat → Bool) : Nat → Nat → IterateResultV003
  | wait_cycles, 0 => ⟨wait_cycles, true⟩
  | wait_cycles, fuel + 1 =>
    if running wait_cycles then
      if MAX_WAIT_CYCLES ≤ wait_cycles then ⟨wait_cycles, true⟩
      else iterate_loop_v003 running (wait_cycles + 1) fuel
    else ⟨wait_cycles, false⟩

/-- Function `iterate` of `src/v-0.03/easypulse_core.c` lines 529–554.  A null
operation signals and returns immediately; otherwise the bounded wait
loop runs.  The C return type is `void`: the timeout is only printed to
stderr, never surfaced to the caller. -/
def iterate_v003 (has_op : Bool) (running : Nat → Bool) : IterateResultV003 :=
  if !has_op then ⟨0, false⟩
  else iterate_loop_v003 running 0 (MAX_WAIT_CYCLES + 1)

/-- The fuel-exhausted branch of `iterate_loop_v003` is unreachable from
`iterate_v003`: for every configuration the loop can actually reach
(`wait_cycles ≤ MAX_WAIT_CYCLES`), any fuel of at least
`MAX_WAIT_CYCLES + 1 - wait_cycles` yields the same result, so the fuel
passed by `iterate_v003` does not influence the modelled behaviour. -/
theorem iterate_loop_v003_fuel_irrelevant (running : Nat → Bool) :
    ∀ fuel wait_cycles, wait_cycles ≤ MAX_WAIT_CYCLES →
      MAX_WAIT_CYCLES + 1 - wait_cycles ≤ fuel →
      iterate_loop_v003 running wait_cycles fuel =
        iterate_loop_v003 running wait_cycles (MAX_WAIT_CYCLES + 1 - wait_cycles) := by
  intro fuel
  induction fuel with
  | zero =>
    intro wait_cycles hw h
    omega
  | succ n ih =>
    intro wait_cycles hw h
    have hrem : MAX_WAIT_CYCLES + 1 - wait_cycles = (MAX_WAIT_CYCLES - wait_cycles) + 1 := by
      omega
    rw [hrem]
    by_cases hr : running wait_cycles
    · by_cases hc : MAX_WAIT_CYCLES ≤ wait_cycles
      · simp [iterate_loop_v003, hr, hc]
      · have h2 : MAX_WAIT_CYCLES + 1 - (wait_cycles + 1) ≤ n := by omega
        have h3 : MAX_WAIT_CYCLES - wait_cycles = MAX_WAIT_CYCLES + 1 - (wait_cycles + 1) := by
          omega
        simp only [iterate_loop_v003, hr, hc, if_true, if_false]
        rw [ih (wait_cycles + 1) (by omega) h2, h3]
    · simp [iterate_loop_v003, hr]

/-! ## The v-0.14 Device Catalog

`pulseaudio_device` as used by `src/v-0.14/easypulse_core.c` (its own
header is not part of the sources; the fields below are the ones the
`.c` file reads, plus the per-channel volume vector).  The `volume`
field is *Modelled from the spec:* the v-0.14 `easypulse_core.h` is
missing from the sources and the spec's DeviceRecord carries a
"per-channel volume vector (owned, sized to channel count)"; note that
no statement of `src/v-0.14/easypulse_core.c` ever writes it. -/

structure OutputDevice where
  index : Nat
  name : String
  code : String
  volume : List Nat
deriving Repr, DecidableEq

/-- The `pulseaudio_manager` fields of v-0.14 that the claims touch:
the owned output-device collection (`outputs` / `output_count`, the
count being the list length). -/
structure Manager where
  outputs : List OutputDevice
deriving Repr, DecidableEq

/-! ## Percentage → raw volume conversion

`src/v-0.14/easypulse_core.c` line 458:

    pa_volume_t pa_volume = (pa_volume_t) ((double) volume / 100.0 * PA_VOLUME_NORM);

For an integer `volume` in `[0,100]` the rounding of `volume / 100.0`
to the nearest double has relative error at most `2⁻⁵³`; the subsequent
multiplication by `PA_VOLUME_NORM = 2¹⁶` is exact (it only shifts the
exponent), so the computed double is `p·2¹⁶/100` up to an absolute error
below `2⁻³⁶`.  `p·2¹⁶/100 = p·16384/25` is either an exact integer or at
distance ≥ 1/25 from every integer, so the C truncation equals the exact
rational floor `⌊p·65536/100⌋` for every integer `p` in `[0,100]`.  The
same argument (error below `2⁻⁷`) covers the single-precision `float`
computation of v-0.03.  The conversions are therefore modelled with
exact natural-number division. -/

/-- The v-0.14 conversion (`manager_set_master_volume`, line 458):
no clamping of the result. -/
def percent_to_raw_v014 (volume : Nat) : Nat :=
  volume * PA_VOLUME_NORM / 100

/-- The v-0.03 conversion (`set_volume`, lines 480–483): the computed
raw value is clamped to `PA_VOLUME_NORM - 1` whenever it would reach
`PA_VOLUME_NORM`. -/
def percent_to_raw_v003 (percentage : Nat) : Nat :=
  let volume := percentage * PA_VOLUME_NORM / 100
  if PA_VOLUME_NORM ≤ volume then PA_VOLUME_NORM - 1 else volume

/-! ## `manager_set_master_volume` (v-0.14, lines 439–475)

The call sequence is: validate the percentage; call
`get_output_device_by_index(device_id)` — which, per
`src/v-0.12/system_query.c` lines 2007–2041, submits a
`pa_context_get_sink_info_by_index` request to the server and waits —
and fail if it yields no device; convert the percentage; build a uniform
`pa_cvolume` over the sink's `channel_map.channels`; submit
`pa_context_set_sink_volume_by_index` and wait.  The function never
re-reads the sink afterwards and never touches `manager->outputs`.
The completion callbacks are assumed to fire (the unbounded wait of
`iterate_v014` is examined separately). -/

structure SetVolumeOutcome where
  result : Int
  requests : List Request
  manager : Manager
  server : ServerState
deriving Repr, DecidableEq

def manager_set_master_volume (server : ServerState) (self : Manager) (device_id : Nat)
    (volume : Int) : SetVolumeOutcome :=
  if volume < 0 || 100 < volume then
    -- rejected before any request is submitted
    ⟨-1, [], self, server⟩
  else
    -- get_output_device_by_index: one sink-info query round-trip, found or not
    match findSinkByIndex server device_id with
    | none => ⟨-1, [Request.getSinkInfoByIndex device_id], self, server⟩
    | some sink_info =>
      let pa_volume := percent_to_raw_v014 volume.toNat
      let cvolume := pa_cvolume_set sink_info.channels pa_volume
      ⟨0,
       [Request.getSinkInfoByIndex device_id,
        Request.setSinkVolumeByIndex device_id cvolume],
       self,
       serverSetSinkVolumeByIndex server device_id cvolume⟩

/-! ## `manager_toggle_output_mute` (v-0.14, lines 514–532)

After the index validation the function submits
`pa_context_set_sink_mute_by_index` and waits.  Its completion callback
`manager_toggle_output_mute_cb` (lines 493–503) receives the server's
`success` flag, prints a message to stderr when it is zero, and signals
the mainloop; the flag does not reach the return value, which is `0`
on every path past validation. -/
def manager_toggle_output_mute (self : Manager) (index : Nat) (state : Bool)
    (server_reports_success : Bool) : Int × List Request :=
  if self.outputs.length ≤ index then
    (-1, [])
  else
    -- the callback only logs `server_reports_success`; the result ignores it
    (0, [Request.setSinkMuteByIndex index state])

/-! ## `manager_switch_default_output` (v-0.14, lines 656–683)

Line 658 initialises the callback context *before* any validation:

    _shared_data_1 shared_data = {self, self->outputs[device_index].index};

so `outputs[device_index]` is read before the bounds check on line 660.
The model records the indices of the reads performed on the `outputs`
array before the validation.  After validation the function (1) submits
`pa_context_set_default_sink` with the device's code and waits, (2)
re-resolves the server's numeric index for that code through
`get_output_device_index_by_code` (`src/v-0.12/system_query.c` lines
2633–2656: a `pa_context_get_sink_info_by_name` round-trip; the result
variable starts at 0 and is overwritten only when the sink is found),
(3) submits `pa_context_get_sink_input_info_list`, whose callback
`manager_switch_default_output_cb_2` (lines 620–644) issues one
fire-and-forget `pa_context_move_sink_input_by_index` to the resolved
index for every reported stream. -/

/-- Function `get_output_device_index_by_code` of `src/v-0.12/system_query.c`. -/
def get_output_device_index_by_code (server : ServerState) (device_code : String) : Nat :=
  match findSinkByName server device_code with
  | some info => info.index
  | none => 0

structure SwitchOutcome where
  result : Bool
  requests : List Request
  server : ServerState
  /-- Indices with which `self->outputs` is subscripted before the
  bounds validation executes (line 658 versus line 660). -/
  outputsReadBeforeValidation : List Nat
deriving Repr, DecidableEq

def manager_switch_default_output (server : ServerState) (self : Manager)
    (device_index : Nat) : SwitchOutcome :=
  -- line 658: shared_data is built from outputs[device_index] unconditionally
  let reads := [device_index]
  if self.outputs.length ≤ device_index then
    ⟨false, [], server, reads⟩
  else
    match self.outputs.get? device_index with
    | none => ⟨false, [], server, reads⟩   -- unreachable: device_index is in bounds
    | some dev =>
      -- pa_context_set_default_sink(code) + iterate
      let server1 := { server with defaultSink := dev.code }
      -- re-resolution round-trip (get_sink_info_by_name)
      let new_index := get_output_device_index_by_code server1 dev.code
      -- sink-input enumeration; one move request per reported stream
      let moves := server1.sinkInputs.map (fun st => Request.moveSinkInput st.index new_index)
      ⟨true,
       Request.setDefaultSink dev.code :: Request.getSinkInfoByName dev.code ::
         Request.getSinkInputInfoList :: moves,
       server1, reads⟩

/-! ## `manager_set_output_mute_state` (v-0.14, lines 927–959)

Read–modify–write: fetch the sink by index
(`pa_context_get_sink_info_by_index`); the callback
`manager_set_output_channel_mute_state_cb` (lines 874–890) copies the
fetched volume vector and overwrites the target channel's entry with
`PA_VOLUME_MUTED` when muting, or with `pa_cvolume_max` of the *fetched*
vector when unmuting; then the whole vector is written back with
`pa_context_set_sink_volume_by_index`.  When the sink does not exist the
C code proceeds to write an uninitialised stack vector — that behaviour
is undefined and is modelled as `none`; every theorem below assumes the
sink exists. -/

structure MuteOutcome where
  result : Int
  requests : List Request
  server : ServerState
deriving Repr, DecidableEq

def manager_set_output_mute_state (server : ServerState) (sink_index : Nat)
    (channel_index : Nat) (mute_state : Bool) : Option MuteOutcome :=
  (findSinkByIndex server sink_index).map (fun info =>
    let new_volume := info.volume.set channel_index
      (if mute_state then PA_VOLUME_MUTED else pa_cvolume_max info.volume)
    ⟨0,
     [Request.getSinkInfoByIndex sink_index,
      Request.setSinkVolumeByIndex sink_index new_volume],
     serverSetSinkVolumeByIndex server sink_index new_volume⟩)

/-- Mute a channel, then unmute it again, with no interleaved external
change: the round trip of claim C7.  Returns the resulting server state
when both steps found the sink. -/
def mute_then_unmute (server : ServerState) (sink_index : Nat) (channel_index : Nat) :
    Option ServerState :=
  (manager_set_output_mute_state server sink_index channel_index true).bind (fun o1 =>
    (manager_set_output_mute_state o1.server sink_index channel_index false).map (fun o2 =>
      o2.server))

/-! ## v-0.03: `set_volume` and its callbacks

`pulseaudio_device` / `pulseaudio_manager` of `src/v-0.03/easypulse_core.h`,
restricted to the fields `set_volume` and its callbacks read:
`devices` (with `device_count` being the list length), `pa_ready`,
`devices_loaded` and `active_device_index`. -/

structure DeviceV003 where
  index : Nat
  name : String
  channels : Nat
  volume : List Nat
deriving Repr, DecidableEq

structure ManagerV003 where
  devices : List DeviceV003
  pa_ready : Nat
  devices_loaded : Nat
  active_device_index : Nat
deriving Repr, DecidableEq

/-- Outcome of v-0.03 `set_volume`: result, request trace, final manager
and server state, plus what the two `iterate` calls observed (`none`
when the call was not reached).  The C caller sees only `result`. -/
structure SetVolumeOutcomeV003 where
  result : Bool
  requests : List Request
  self : ManagerV003
  server : ServerState
  wait1 : Option IterateResultV003
  wait2 : Option IterateResultV003
deriving Repr, DecidableEq

/-- Function `set_volume` of `src/v-0.03/easypulse_core.c` lines 474–520.
Validation: null manager (excluded by the model), percentage outside
`[0,100]`, index out of bounds, then `pa_ready`/`devices_loaded`.
Round-trip 1: `pa_context_set_sink_volume_by_name` with a uniform vector
over the device's channels, then `iterate` (`running1` is the
operation's state schedule); the server has applied the write once the
operation completed.  Round-trip 2: `pa_context_get_sink_info_by_name`,
then `iterate`; its callback `set_volume_cb2` (lines 424–459) overwrites
`devices[active_device_index].volume` — the *active* device's slot —
with the fetched vector, provided the operation completed and the sink
was found.  The function returns `true` on every path past validation,
whether or not either `iterate` timed out.  (An out-of-bounds
`active_device_index` would be an out-of-bounds write in C; the model
leaves the manager unchanged there and the theorems below assume the
index is in bounds.) -/
def set_volume (server : ServerState) (self : ManagerV003) (device_index : Nat)
    (percentage : Int) (running1 running2 : Nat → Bool) : SetVolumeOutcomeV003 :=
  if percentage < 0 || 100 < percentage || self.devices.length ≤ device_index then
    ⟨false, [], self, server, none, none⟩
  else if !(self.pa_ready == 1) || !(self.devices_loaded == 1) then
    ⟨false, [], self, server, none, none⟩
  else
    match self.devices.get? device_index with
    | none => ⟨false, [], self, server, none, none⟩   -- unreachable: index is in bounds
    | some dev =>
      let volume := percent_to_raw_v003 percentage.toNat
      let cvolume := pa_cvolume_set dev.channels volume
      let w1 := iterate_v003 true running1
      let server1 :=
        if w1.timed_out then server
        else serverSetSinkVolumeByName server dev.name cvolume
      let w2 := iterate_v003 true running2
      let self1 :=
        if w2.timed_out then self
        else
          match findSinkByName server1 dev.name with
          | some info =>
            match self.devices.get? self.active_device_index with
            | some adev =>
              { self with
                devices := self.devices.set self.active_device_index
                  { adev with volume := info.volume } }
            | none => self
          | none => self
      ⟨true,
       [Request.setSinkVolumeByName dev.name cvolume,
        Request.getSinkInfoByName dev.name],
       self1, server1, some w1, some w2⟩

/-! ## Catalog build: the growable source array (v-0.12)

`get_available_input_devices_cb` (`src/v-0.12/system_query.c` lines
1498–1550) appends one record per callback invocation; when
`count >= allocated` it reallocates to `allocated + 8` entries (lines
1515–1525) — a fixed increment, not a doubling.  The model tracks the
length, the capacity and the number of reallocations performed. -/

structure GrowState where
  count : Nat
  allocated : Nat
  reallocs : Nat
deriving Repr, DecidableEq

/-- One non-terminal invocation of `get_available_input_devices_cb`:
grow by 8 when full, then append. -/
def sources_append_step (st : GrowState) : GrowState :=
  if st.allocated ≤ st.count then
    ⟨st.count + 1, st.allocated + 8, st.reallocs + 1⟩
  else
    ⟨st.count + 1, st.allocated, st.reallocs⟩

/-- State of the sources array after `n` devices have been reported
(`get_available_input_devices` starts from `sources = NULL`,
`count = 0`, `allocated = 0`, lines 1579–1581). -/
def sources_append : Nat → GrowState
  | 0 => ⟨0, 0, 0⟩
  | n + 1 => sources_append_step (sources_append n)

/-! ## Concrete fixtures

Mock server and catalogs used by the closed evaluations: two output
devices with codes `"out.0"` / `"out.1"` and descriptions `"Speakers"` /
`"Headphones"`, and three active playback streams — the spec's §8
example scenario. -/

def demoSink0 : SinkInfo := ⟨0, "out.0", "Speakers", 2, [100, 200]⟩

def demoSink1 : SinkInfo := ⟨7, "out.1", "Headphones", 2, [50, 60]⟩

def demoServer : ServerState :=
  ⟨[demoSink0, demoSink1], "out.0", [⟨11⟩, ⟨12⟩, ⟨13⟩]⟩

def demoManager : Manager :=
  ⟨[⟨0, "Speakers", "out.0", [100, 200]⟩, ⟨7, "Headphones", "out.1", [50, 60]⟩]⟩

def demoManagerV003 : ManagerV003 :=
  ⟨[⟨0, "out.0", 2, [100, 200]⟩], 1, 1, 0⟩

/-! ## Helper lemmas -/

theorem get?_set_self {α : Type} (l : List α) (i : Nat) (a : α) (h : i < l.length) :
    (l.set i a).get? i = some a := by
  induction l generalizing i with
  | nil => simp at h
  | cons hd tl ih =>
    cases i with
    | zero => rfl
    | succ n =>
      simp only [List.set_cons_succ, List.get?_cons_succ]
      exact ih n (by simpa using h)

/-- Mapping a conditional update over a list commutes with `find?` when
the update preserves the predicate. -/
theorem find?_map_cond_update {α : Type} (p : α → Bool) (f : α → α)
    (hf : ∀ a, p (f a) = p a) (l : List α) :
    (l.map (fun a => if p a then f a else a)).find? p = (l.find? p).map f := by
  induction l with
  | nil => rfl
  | cons hd tl ih =>
    by_cases h : p hd
    · simp [List.find?_cons, h, hf]
    · simp [List.find?_cons, h, hf, ih]

/-- A by-index volume write commutes with the by-index lookup: the
lookup afterwards returns the same sink with its volume replaced. -/
theorem findSinkByIndex_setVolumeByIndex (server : ServerState) (idx : Nat) (vol : List Nat) :
    findSinkByIndex (serverSetSinkVolumeByIndex server idx vol) idx =
      (findSinkByIndex server idx).map (fun s => { s with volume := vol }) := by
  exact find?_map_cond_update (fun s => s.index == idx)
    (fun s => { s with volume := vol }) (fun a => rfl) server.sinks

/-- A by-name volume write commutes with the by-name lookup. -/
theorem findSinkByName_setVolumeByName (server : ServerState) (name : String) (vol : List Nat) :
    findSinkByName (serverSetSinkVolumeByName server name vol) name =
      (findSinkByName server name).map (fun s => { s with volume := vol }) := by
  exact find?_map_cond_update (fun s => s.name == name)
    (fun s => { s with volume := vol }) (fun a => rfl) server.sinks

/-! ## Claims -/

/-- Claim C1 (code bug, evaluated at the failing input): the claim that
every wait path of the bridge applies a bounded wait-cycle cutoff and
returns a timeout failure on cutoff is violated twice by the code.  For
an operation whose completion callback never signals, the v-0.14
`iterate` — a single condition wait with no cycle counter — never
returns; and the v-0.03 `iterate` does cut off after
`MAX_WAIT_CYCLES = 100` cycles, but returns `void`, so its caller
`set_volume` proceeds and still reports success: below, both of its
waits time out, yet the result is `true`. -/
theorem bridge_wait_unbounded_or_silent_timeout :
    iterate_v014 true false = WaitOutcome.blocksForever ∧
    iterate_v003 true (fun _ => true) = ⟨MAX_WAIT_CYCLES, true⟩ ∧
    (set_volume demoServer demoManagerV003 0 50 (fun _ => true) (fun _ => true)).result = true ∧
    (set_volume demoServer demoManagerV003 0 50 (fun _ => true) (fun _ => true)).wait1 =
      some ⟨MAX_WAIT_CYCLES, true⟩ := by
  exact ⟨rfl, by decide, by decide, by decide⟩

/-- Claim C4 (code bug, evaluated at the failing input): for index 5
against a catalog of 2 outputs, `manager_switch_default_output` does
return failure, submits no server request and leaves the default device
unchanged — but it has already subscripted `outputs[5]`, outside the
array bounds, while building the callback context on line 658, before
the validation on line 660 runs. -/
theorem switch_default_output_reads_before_validation :
    (manager_switch_default_output demoServer demoManager 5).result = false ∧
    (manager_switch_default_output demoServer demoManager 5).requests = [] ∧
    (manager_switch_default_output demoServer demoManager 5).server = demoServer ∧
    (manager_switch_default_output demoServer demoManager 5).outputsReadBeforeValidation = [5] ∧
    demoManager.outputs.length ≤ 5 := by
  decide

/-- Claim C8 (code bug, evaluated at the failing input): with a valid
index (0, within the 2-output catalog) and the server's completion
callback reporting failure (`success = 0`, the last argument `false`),
`manager_toggle_output_mute` still returns 0 — the success value — to
its caller; the claim (and the function's own documentation, which
promises -1 on failure) says an error must be returned. -/
theorem toggle_output_mute_ignores_server_failure :
    manager_toggle_output_mute demoManager 0 true false =
      (0, [Request.setSinkMuteByIndex 0 true]) ∧
    (0 : Int) ≠ -1 := by
  decide

/-- Claim C9 counterexample: the sources array of the catalog-build
callback does not grow by doubling.  After 16 appends the capacity is
exactly full (16); the 17th append triggers a reallocation to capacity
24 < 2·16, the third reallocation already — with doubling from a full
capacity of 16 at most two reallocations could have occurred. -/
theorem sources_growth_not_doubling :
    (sources_append 16).count = 16 ∧
    (sources_append 16).allocated = 16 ∧
    (sources_append 17).allocated = 24 ∧
    24 < 2 * 16 ∧
    (sources_append 17).reallocs = 3 := by
  decide

/-- Claim C9 amended: the callback grows the array by a fixed increment
of 8 slots whenever it is full, so after `n` appends the capacity is
`8·⌈n/8⌉` and exactly `⌈n/8⌉` reallocations have been performed — one
per 8 appended elements (linear in `n`, not one per element, but not
the `O(log n)` of amortized doubling either). -/
theorem sources_growth_fixed_increment (n : Nat) :
    (sources_append n).count = n ∧
    (sources_append n).allocated = 8 * ((n + 7) / 8) ∧
    (sources_append n).reallocs = (n + 7) / 8 := by
  induction n with
  | zero => decide
  | succ m ih =>
    obtain ⟨h1, h2, h3⟩ := ih
    simp only [sources_append, sources_append_step]
    by_cases hc : (sources_append m).allocated ≤ (sources_append m).count
    · rw [if_pos hc]
      rw [h1, h2] at hc
      dsimp only
      rw [h1, h2, h3]
      omega
    · rw [if_neg hc]
      rw [h1, h2] at hc
      dsimp only
      rw [h1, h2, h3]
      omega

/-- Claim C2 counterexample: percentage 50 is valid, device id 99
matches no sink; `manager_set_master_volume` does return the error -1,
but the device lookup (`get_output_device_by_index`, which submits
`pa_context_get_sink_info_by_index` and waits) has already been issued:
one server round-trip, not zero. -/
theorem set_master_volume_notfound_roundtrip :
    manager_set_master_volume demoServer demoManager 99 50 =
      ⟨-1, [Request.getSinkInfoByIndex 99], demoManager, demoServer⟩ ∧
    [Request.getSinkInfoByIndex 99] ≠ ([] : List Request) := by
  decide

/-- Claim C2 amended: a percentage outside [0,100] is rejected with an
error before any server request is submitted; a device id with no
matching sink also yields an error, but only after exactly one server
round-trip — the sink-info lookup that discovers the absence. -/
theorem set_master_volume_validation (server : ServerState) (self : Manager)
    (device_id : Nat) (volume : Int) :
    ((volume < 0 ∨ 100 < volume) →
      manager_set_master_volume server self device_id volume = ⟨-1, [], self, server⟩) ∧
    (0 ≤ volume → volume ≤ 100 → findSinkByIndex server device_id = none →
      manager_set_master_volume server self device_id volume =
        ⟨-1, [Request.getSinkInfoByIndex device_id], self, server⟩) := by
  constructor
  · intro h
    have hb : (decide (volume < 0) || decide (100 < volume)) = true := by
      rcases h with h | h <;> simp [h]
    unfold manager_set_master_volume
    rw [if_pos hb]
  · intro h0 h100 hfind
    have hb : ¬ ((decide (volume < 0) || decide (100 < volume)) = true) := by
      simp
      omega
    unfold manager_set_master_volume
    rw [if_neg hb, hfind]

/-- Witness for `set_master_volume_validation`: the out-of-range
percentage 101 is rejected with no request, and the unmatched device id
99 yields the error after the single lookup round-trip. -/
theorem set_master_volume_validation_witness :
    manager_set_master_volume demoServer demoManager 0 101 =
      ⟨-1, [], demoManager, demoServer⟩ ∧
    manager_set_master_volume demoServer demoManager 99 50 =
      ⟨-1, [Request.getSinkInfoByIndex 99], demoManager, demoServer⟩ :=
  ⟨(set_master_volume_validation demoServer demoManager 0 101).1 (Or.inr (by decide)),
   (set_master_volume_validation demoServer demoManager 99 50).2 (by decide) (by decide)
     (by decide)⟩

/-- Claim C6 counterexample: at p = 100 the v-0.14 conversion yields
exactly `PA_VOLUME_NORM` — the full-scale constant, not one unit below
it — and `manager_set_master_volume` submits exactly that raw value to
the server on every channel. -/
theorem percent_conversion_reaches_full_scale :
    percent_to_raw_v014 100 = PA_VOLUME_NORM ∧
    ¬ percent_to_raw_v014 100 < PA_VOLUME_NORM ∧
    (manager_set_master_volume demoServer demoManager 0 100).requests =
      [Request.getSinkInfoByIndex 0,
       Request.setSinkVolumeByIndex 0 (List.replicate 2 PA_VOLUME_NORM)] := by
  refine ⟨by decide, by decide, ?_⟩
  decide

/-- Claim C6 amended: both conversions are the floor of the linear map
p ↦ p·PA_VOLUME_NORM/100.  The v-0.03 conversion clamps the result below
`PA_VOLUME_NORM`, sending p = 100 to `PA_VOLUME_NORM - 1`; the v-0.14
conversion applies no clamp and sends p = 100 to `PA_VOLUME_NORM`
itself. -/
theorem percent_conversion_linear (p : Nat) (hp : p ≤ 100) :
    percent_to_raw_v014 p = p * PA_VOLUME_NORM / 100 ∧
    percent_to_raw_v003 p < PA_VOLUME_NORM ∧
    (p < 100 → percent_to_raw_v003 p = p * PA_VOLUME_NORM / 100) ∧
    percent_to_raw_v003 100 = PA_VOLUME_NORM - 1 ∧
    percent_to_raw_v014 100 = PA_VOLUME_NORM := by
  refine ⟨rfl, ?_, ?_, by decide, by decide⟩
  · unfold percent_to_raw_v003 PA_VOLUME_NORM
    dsimp only
    split <;> omega
  · intro hlt
    unfold percent_to_raw_v003 PA_VOLUME_NORM
    dsimp only
    split
    · omega
    · rfl

/-- Witness for `percent_conversion_linear` at p = 50: the conversion
yields 32768, half of full scale. -/
theorem percent_conversion_linear_witness :
    percent_to_raw_v014 50 = 50 * PA_VOLUME_NORM / 100 ∧
    percent_to_raw_v003 50 < PA_VOLUME_NORM ∧
    percent_to_raw_v003 50 = 32768 := by
  obtain ⟨h1, h2, h3, _, _⟩ := percent_conversion_linear 50 (by decide)
  exact ⟨h1, h2, by rw [h3 (by decide)]; decide⟩

/-- Claim C10: for a valid device and a percentage in range,
`manager_set_master_volume` submits a single uniform per-channel
vector — every channel of the sink's channel map receives the same raw
value — and the server's resulting volume vector for that sink is that
uniform vector, erasing any per-channel balance. -/
theorem set_master_volume_uniform_vector (server : ServerState) (self : Manager)
    (device_id : Nat) (volume : Int) (sink : SinkInfo)
    (h0 : 0 ≤ volume) (h100 : volume ≤ 100)
    (hsink : findSinkByIndex server device_id = some sink) :
    (manager_set_master_volume server self device_id volume).result = 0 ∧
    (manager_set_master_volume server self device_id volume).requests =
      [Request.getSinkInfoByIndex device_id,
       Request.setSinkVolumeByIndex device_id
         (List.replicate sink.channels (percent_to_raw_v014 volume.toNat))] ∧
    (findSinkByIndex (manager_set_master_volume server self device_id volume).server
        device_id).map SinkInfo.volume =
      some (List.replicate sink.channels (percent_to_raw_v014 volume.toNat)) := by
  have hb : ¬ ((decide (volume < 0) || decide (100 < volume)) = true) := by
    simp
    omega
  unfold manager_set_master_volume
  rw [if_neg hb, hsink]
  refine ⟨rfl, rfl, ?_⟩
  dsimp only
  rw [findSinkByIndex_setVolumeByIndex, hsink]
  rfl

/-- Witness for `set_master_volume_uniform_vector`: device 0 of the
mock catalog at 75% receives 49152 on both channels, replacing the
unbalanced vector [100, 200]. -/
theorem set_master_volume_uniform_vector_witness :
    (manager_set_master_volume demoServer demoManager 0 75).requests =
      [Request.getSinkInfoByIndex 0,
       Request.setSinkVolumeByIndex 0 (List.replicate demoSink0.channels 49152)] :=
  ((set_master_volume_uniform_vector demoServer demoManager 0 75 demoSink0 (by decide)
    (by decide) (by decide)).2).1

/-- Claim C3: for a valid output index, `manager_switch_default_output`
sets the server's default sink to `outputs[device_index].code`,
re-resolves the server-assigned numeric index for that code (the
`getSinkInfoByName` round-trip, yielding the server's `sk.index`), and
requests a move to that numeric index for every currently active
playback stream reported by the sink-input enumeration. -/
theorem switch_default_output_valid (server : ServerState) (self : Manager)
    (device_index : Nat) (dev : OutputDevice) (sk : SinkInfo)
    (hdev : self.outputs.get? device_index = some dev)
    (hsk : findSinkByName server dev.code = some sk) :
    manager_switch_default_output server self device_index =
      ⟨true,
       Request.setDefaultSink dev.code :: Request.getSinkInfoByName dev.code ::
         Request.getSinkInputInfoList ::
         server.sinkInputs.map (fun st => Request.moveSinkInput st.index sk.index),
       { server with defaultSink := dev.code },
       [device_index]⟩ := by
  have hlt : device_index < self.outputs.length := by
    rcases List.get?_eq_some.mp hdev with ⟨h, _⟩
    exact h
  have hnle : ¬ self.outputs.length ≤ device_index := Nat.not_le.mpr hlt
  unfold manager_switch_default_output
  rw [if_neg hnle, hdev]
  dsimp only
  unfold get_output_device_index_by_code
  rw [show findSinkByName { server with defaultSink := dev.code } dev.code
        = findSinkByName server dev.code from rfl, hsk]

/-- Witness for `switch_default_output_valid`: the spec's example
scenario — switching to output 1 (`"out.1"`, server index 7) makes
`"out.1"` the default and asks each of the three active streams
(indices 11, 12, 13) to move to index 7. -/
theorem switch_default_output_valid_witness :
    manager_switch_default_output demoServer demoManager 1 =
      ⟨true,
       [Request.setDefaultSink "out.1", Request.getSinkInfoByName "out.1",
        Request.getSinkInputInfoList, Request.moveSinkInput 11 7,
        Request.moveSinkInput 12 7, Request.moveSinkInput 13 7],
       { demoServer with defaultSink := "out.1" },
       [1]⟩ := by
  rw [switch_default_output_valid demoServer demoManager 1
    ⟨7, "Headphones", "out.1", [50, 60]⟩ demoSink1 (by decide) (by decide)]
  decide

/-- Claim C5 counterexample: in v-0.14, for the valid device 0 and
percentage 50, `manager_set_master_volume` submits the device lookup
and then the volume write — and nothing after the write.  There is no
re-fetch round-trip, and the catalog is returned unchanged: the cached
volume vector still reads [100, 200] although the server now holds
[32768, 32768]. -/
theorem set_master_volume_no_refetch :
    (manager_set_master_volume demoServer demoManager 0 50).requests =
      [Request.getSinkInfoByIndex 0, Request.setSinkVolumeByIndex 0 [32768, 32768]] ∧
    (manager_set_master_volume demoServer demoManager 0 50).manager = demoManager ∧
    (findSinkByIndex (manager_set_master_volume demoServer demoManager 0 50).server 0).map
        SinkInfo.volume = some [32768, 32768] ∧
    (demoManager.outputs.get? 0).map OutputDevice.volume = some [100, 200] ∧
    ([100, 200] : List Nat) ≠ [32768, 32768] := by
  decide

/-- Claim C5 amended: the write-then-refetch contract is the one of
v-0.03's `set_volume` (v-0.14's `manager_set_master_volume` stops after
the write).  When the manager is ready, the index is valid and is the
active device, the percentage is in range, the server knows the
device's name and neither operation times out, `set_volume` issues
exactly two round-trips — the volume write, then the info re-fetch —
returns true, and afterwards the cached volume vector of the target
device equals the vector the server actually applied. -/
theorem set_volume_two_roundtrips_consistent (server : ServerState) (self : ManagerV003)
    (device_index : Nat) (percentage : Int) (dev : DeviceV003) (sk : SinkInfo)
    (r1 r2 : Nat → Bool)
    (hdev : self.devices.get? device_index = some dev)
    (hact : self.active_device_index = device_index)
    (hready : self.pa_ready = 1) (hloaded : self.devices_loaded = 1)
    (h0 : 0 ≤ percentage) (h100 : percentage ≤ 100)
    (hsk : findSinkByName server dev.name = some sk)
    (hw1 : (iterate_v003 true r1).timed_out = false)
    (hw2 : (iterate_v003 true r2).timed_out = false) :
    (set_volume server self device_index percentage r1 r2).result = true ∧
    (set_volume server self device_index percentage r1 r2).requests =
      [Request.setSinkVolumeByName dev.name
         (pa_cvolume_set dev.channels (percent_to_raw_v003 percentage.toNat)),
       Request.getSinkInfoByName dev.name] ∧
    ((set_volume server self device_index percentage r1 r2).self.devices.get?
        device_index).map DeviceV003.volume =
      some (pa_cvolume_set dev.channels (percent_to_raw_v003 percentage.toNat)) ∧
    (findSinkByName (set_volume server self device_index percentage r1 r2).server
        dev.name).map SinkInfo.volume =
      some (pa_cvolume_set dev.channels (percent_to_raw_v003 percentage.toNat)) := by
  have hlt : device_index < self.devices.length := by
    rcases List.get?_eq_some.mp hdev with ⟨h, _⟩
    exact h
  have key : set_volume server self device_index percentage r1 r2 =
      ⟨true,
       [Request.setSinkVolumeByName dev.name
          (pa_cvolume_set dev.channels (percent_to_raw_v003 percentage.toNat)),
        Request.getSinkInfoByName dev.name],
       ManagerV003.mk
         (self.devices.set device_index
           (DeviceV003.mk dev.index dev.name dev.channels
             (pa_cvolume_set dev.channels (percent_to_raw_v003 percentage.toNat))))
         self.pa_ready self.devices_loaded self.active_device_index,
       serverSetSinkVolumeByName server dev.name
         (pa_cvolume_set dev.channels (percent_to_raw_v003 percentage.toNat)),
       some (iterate_v003 true r1), some (iterate_v003 true r2)⟩ := by
    have hb1 : ¬ ((decide (percentage < 0) || decide (100 < percentage)
        || decide (self.devices.length ≤ device_index)) = true) := by
      simp only [Bool.or_eq_true, decide_eq_true_eq, not_or]
      omega
    have hb2 : ¬ ((!(self.pa_ready == 1) || !(self.devices_loaded == 1)) = true) := by
      simp [hready, hloaded]
    unfold set_volume
    rw [if_neg hb1, if_neg hb2, hdev]
    dsimp only
    rw [hw1, hw2]
    simp only [if_neg Bool.false_ne_true]
    rw [findSinkByName_setVolumeByName, hsk, hact, hdev]
    rfl
  rw [key]
  refine ⟨rfl, rfl, ?_, ?_⟩
  · dsimp only
    rw [get?_set_self _ _ _ hlt]
    rfl
  · dsimp only
    rw [findSinkByName_setVolumeByName, hsk]
    rfl

/-- Witness for `set_volume_two_roundtrips_consistent`: setting 80% on
the (active) device 0 of the mock catalog issues the write of
[52428, 52428] followed by the re-fetch, and the cache ends up holding
exactly that vector. -/
theorem set_volume_two_roundtrips_consistent_witness :
    (set_volume demoServer demoManagerV003 0 80 (fun _ => false) (fun _ => false)).result
        = true ∧
    ((set_volume demoServer demoManagerV003 0 80 (fun _ => false)
        (fun _ => false)).self.devices.get? 0).map DeviceV003.volume =
      some (pa_cvolume_set 2 (percent_to_raw_v003 80)) := by
  have h := set_volume_two_roundtrips_consistent demoServer demoManagerV003 0 80
    ⟨0, "out.0", 2, [100, 200]⟩ demoSink0 (fun _ => false) (fun _ => false)
    (by decide) (by decide) (by decide) (by decide) (by decide) (by decide)
    (by decide) (by decide) (by decide)
  exact ⟨h.1, h.2.2.1⟩

/-- Server fixture with unbalanced channel volumes, for the C7
round-trip counterexample. -/
def imbalancedServer : ServerState :=
  ⟨[⟨3, "out.x", "Imbalanced", 2, [10, 20]⟩], "out.x", []⟩

/-- Claim C7 counterexample: with per-channel volumes [10, 20], muting
channel 1 and then unmuting it leaves channel 1 at 10 — the maximum of
the muted vector [10, 0] — not at its pre-toggle value 20. -/
theorem mute_round_trip_fails :
    (findSinkByIndex imbalancedServer 3).bind (fun s => s.volume.get? 1) = some 20 ∧
    ((mute_then_unmute imbalancedServer 3 1).bind (fun sv =>
      (findSinkByIndex sv 3).bind (fun s => s.volume.get? 1))) = some 10 ∧
    (10 : Nat) ≠ 20 := by
  decide

/-- Claim C7 amended: muting a channel and unmuting it restores the
channel to the maximum of the muted vector (i.e. the maximum over the
other channels); the pre-toggle value is recovered exactly when it
equals that maximum — e.g. for vectors uniform over at least two
channels — not in general. -/
theorem mute_round_trip_restores (server : ServerState)
    (sink_index channel_index : Nat) (s : SinkInfo) (x : Nat)
    (hs : findSinkByIndex server sink_index = some s)
    (hx : s.volume.get? channel_index = some x)
    (hmax : pa_cvolume_max (s.volume.set channel_index PA_VOLUME_MUTED) = x) :
    (mute_then_unmute server sink_index channel_index).bind (fun sv =>
      (findSinkByIndex sv sink_index).bind (fun s2 => s2.volume.get? channel_index)) =
      some x := by
  have hlen : channel_index < s.volume.length := by
    rcases List.get?_eq_some.mp hx with ⟨h, _⟩
    exact h
  have step1 : manager_set_output_mute_state server sink_index channel_index true =
      some ⟨0,
        [Request.getSinkInfoByIndex sink_index,
         Request.setSinkVolumeByIndex sink_index
           (s.volume.set channel_index PA_VOLUME_MUTED)],
        serverSetSinkVolumeByIndex server sink_index
          (s.volume.set channel_index PA_VOLUME_MUTED)⟩ := by
    unfold manager_set_output_mute_state
    rw [hs]
    rfl
  have hs1 : findSinkByIndex (serverSetSinkVolumeByIndex server sink_index
      (s.volume.set channel_index PA_VOLUME_MUTED)) sink_index =
      some { s with volume := s.volume.set channel_index PA_VOLUME_MUTED } := by
    rw [findSinkByIndex_setVolumeByIndex, hs]
    rfl
  have step2 : manager_set_output_mute_state
      (serverSetSinkVolumeByIndex server sink_index
        (s.volume.set channel_index PA_VOLUME_MUTED)) sink_index channel_index false =
      some ⟨0,
        [Request.getSinkInfoByIndex sink_index,
         Request.setSinkVolumeByIndex sink_index
           ((s.volume.set channel_index PA_VOLUME_MUTED).set channel_index x)],
        serverSetSinkVolumeByIndex
          (serverSetSinkVolumeByIndex server sink_index
            (s.volume.set channel_index PA_VOLUME_MUTED)) sink_index
          ((s.volume.set channel_index PA_VOLUME_MUTED).set channel_index x)⟩ := by
    unfold manager_set_output_mute_state
    rw [hs1, Option.map_some']
    dsimp only
    rw [if_neg Bool.false_ne_true, hmax]
  have hs2 : findSinkByIndex (serverSetSinkVolumeByIndex
      (serverSetSinkVolumeByIndex server sink_index
        (s.volume.set channel_index PA_VOLUME_MUTED)) sink_index
      ((s.volume.set channel_index PA_VOLUME_MUTED).set channel_index x)) sink_index =
      some { s with volume :=
        (s.volume.set channel_index PA_VOLUME_MUTED).set channel_index x } := by
    rw [findSinkByIndex_setVolumeByIndex, hs1]
    rfl
  unfold mute_then_unmute
  rw [step1]
  dsimp only [Option.bind]
  rw [step2]
  dsimp only [Option.map]
  rw [hs2]
  dsimp only [Option.bind]
  exact get?_set_self _ _ _ (by rw [List.length_set]; exact hlen)

/-- Server fixture with uniform channel volumes, for the C7 witness. -/
def uniformServer : ServerState :=
  ⟨[⟨5, "out.u", "Uniform", 2, [30, 30]⟩], "out.u", []⟩

/-- Witness for `mute_round_trip_restores`: on the uniform vector
[30, 30] the mute/unmute round trip on channel 0 does restore 30. -/
theorem mute_round_trip_restores_witness :
    (mute_then_unmute uniformServer 5 0).bind (fun sv =>
      (findSinkByIndex sv 5).bind (fun s2 => s2.volume.get? 0)) = some 30 :=
  mute_round_trip_restores uniformServer 5 0 ⟨5, "out.u", "Uniform", 2, [30, 30]⟩ 30
    (by decide) (by decide) (by decide)

end EasyPulse
